import Mathlib

/-
Verification development for the krpc-launch repository (src/launch.py).

The file src/launch.py contains a literal git merge conflict: two complete
variants of the program, the HEAD variant (lines 2-539) and a second variant
(lines 541-1055).  We embed the HEAD variant as the primary definitions and,
where the claims cite the second variant, additional definitions carrying an
`_alt` suffix.

Modelling conventions:
  * Python floats are modelled as rationals (ℚ).
  * `math.exp` and `math.sqrt` are external library calls; they are modelled
    as oracle parameters `eO sO : ℚ → ℚ` threaded through the definitions
    (`math.sqrt` additionally raises ValueError on negative input, which the
    wrapper `pysqrt` models).  `expQ` below is a concrete Taylor-polynomial
    stand-in used to evaluate closed statements.
  * Python exceptions are modelled with `Except`; a raise inside the mission
    loop carries the world state at the raise point: `Except (PyError × World)`.
  * Python float division raises ZeroDivisionError on a zero denominator;
    the wrapper `pydiv` models this.
  * The krpc vehicle interface is modelled by the `Telem` record (sensor
    reads refreshed by the environment each tick) plus mutable control state
    in `World` (throttle, sas mode, maneuver nodes, current stage, warp,
    solar-panel state).
-/

namespace KrpcLaunch

/-- The `Status` enum of launch.py (values 0,10,...,80). -/
inductive Status where
  | idle
  | prelaunch
  | launch
  | liftoff
  | pitch
  | coast
  | circularize
  | finalize
  | done
deriving DecidableEq, Repr

/-- Numeric value of each Status member as in the Python enum. -/
def Status.val : Status → Nat
  | .idle => 0
  | .prelaunch => 10
  | .launch => 20
  | .liftoff => 30
  | .pitch => 40
  | .coast => 50
  | .circularize => 60
  | .finalize => 70
  | .done => 80

/-- The `.name` attribute of a Status member. -/
def Status.name : Status → String
  | .idle => "IDLE"
  | .prelaunch => "PRELAUNCH"
  | .launch => "LAUNCH"
  | .liftoff => "LIFTOFF"
  | .pitch => "PITCH"
  | .coast => "COAST"
  | .circularize => "CIRCULARIZE"
  | .finalize => "FINALIZE"
  | .done => "DONE"

/-- The nine phase names that `set_status` can ever report. -/
def phaseNames : List String :=
  ["IDLE", "PRELAUNCH", "LAUNCH", "LIFTOFF", "PITCH", "COAST",
   "CIRCULARIZE", "FINALIZE", "DONE"]

/-- Python exceptions that the embedded code can raise. -/
inductive PyError where
  | indexError
  | zeroDivisionError
  | valueError
deriving DecidableEq, Repr

/-- Autopilot SAS modes used by the guidance controller. -/
inductive SasMode where
  | stabilityAssist
  | prograde
  | maneuver
deriving DecidableEq, Repr

/-- The two tracked fuel types of the `FuelTypes` enum. -/
inductive FuelType where
  | liquid
  | solid
deriving DecidableEq, Repr

/-- A maneuver node: scheduled universal time and prograde delta-v. -/
structure Node where
  ut : ℚ
  prograde : ℚ
deriving DecidableEq, Repr

/-- krpc's `node.delta_v` is the magnitude of the burn vector; for a
prograde-only node this is the absolute value of the prograde component. -/
def Node.delta_v (n : Node) : ℚ := |n.prograde|

/-- Sensor reads from the vehicle interface, refreshed by the environment
each tick.  `resourceMax`/`resourceAmount` model
`vessel.resources_in_decouple_stage(stage).max/amount` per fuel type. -/
structure Telem where
  ut : ℚ
  mass : ℚ
  specific_impulse : ℚ
  available_thrust : ℚ
  apoapsis_altitude : ℚ
  periapsis_altitude : ℚ
  apoapsis : ℚ
  semi_major_axis : ℚ
  time_to_apoapsis : ℚ
  orbit_speed : ℚ
  mean_altitude : ℚ
  atmosphere_depth : ℚ
  gravitational_parameter : ℚ
  surface_gravity : ℚ
  resourceMax : Int → FuelType → ℚ
  resourceAmount : Int → FuelType → ℚ

/-- Full mission state: orchestrator state, controller-visible shared phase,
vehicle control state, and the current sensor snapshot `v`. -/
structure World where
  status : Status
  statusLog : List String
  telemetryCount : Nat
  throttle : ℚ
  sas : Bool
  sasMode : SasMode
  apEngaged : Bool
  targetPitch : ℚ
  targetHeading : ℚ
  targetRoll : Option ℚ
  nodes : List Node
  current_stage : Int
  physics_warp_factor : Nat
  warpTarget : Option ℚ
  solarDeployed : Bool
  v : Telem

-- --------------------------------------------------------------------------
-- Launch parameters (HEAD variant, launch.py lines 11-23)
-- --------------------------------------------------------------------------

def ORBIT_ALT : ℚ := 100000
def GRAV_TURN_FINISH : ℚ := 55000
def MAX_AUTO_STAGE : Int := 0
def DEPLOY_SOLAR : Bool := true
def FORCE_ROLL : Bool := true
def ROLL : ℚ := 90
def INCLINATION : ℚ := 0
def G : ℚ := 982 / 100
def MAX_PHYSICS_WARP : Nat := 3

/-- Source `ORBIT_ALT` of the second merge variant (launch.py line 550). -/
def ORBIT_ALT_alt : ℚ := 95000

-- --------------------------------------------------------------------------
-- Python arithmetic wrappers
-- --------------------------------------------------------------------------

/-- Python float division: raises ZeroDivisionError when the denominator is
zero, otherwise exact division (floats modelled as rationals). -/
def pydiv (x y : ℚ) : Except PyError ℚ :=
  if y = 0 then .error .zeroDivisionError else .ok (x / y)

/-- Source `math.sqrt` through the oracle `sO`: raises ValueError on negative
input. -/
def pysqrt (sO : ℚ → ℚ) (x : ℚ) : Except PyError ℚ :=
  if x < 0 then .error .valueError else .ok (sO x)

/-- A concrete computable stand-in for `math.exp`: the degree-4 Taylor
polynomial of the exponential, used to evaluate closed statements. -/
def expQ (x : ℚ) : ℚ :=
  ((List.range 5).map (fun k => x ^ k / (Nat.factorial k : ℚ))).sum

-- --------------------------------------------------------------------------
-- calc_burn_time (launch.py lines 246-256; identical copies at 418-428,
-- 501-511, 784-794, 1019-1029)
-- --------------------------------------------------------------------------

/-- Source `calc_burn_time`:
`node = nodes[0]` (IndexError when no node exists), then
`(m - (m / exp(dv / (isp * G)))) / (F / (isp * G))` with the module constant
`G = 9.82`, each division raising ZeroDivisionError on a zero denominator. -/
def calc_burn_time (eO : ℚ → ℚ) (w : World) : Except PyError ℚ :=
  match w.nodes with
  | [] => .error .indexError
  | n :: _ =>
    let m := w.v.mass
    let isp := w.v.specific_impulse
    let dv := n.delta_v
    let F := w.v.available_thrust
    match pydiv dv (isp * G) with
    | .error e => .error e
    | .ok x =>
      match pydiv m (eO x) with
      | .error e => .error e
      | .ok q =>
        match pydiv F (isp * G) with
        | .error e => .error e
        | .ok denom => pydiv (m - q) denom

/-- Modelled from the spec: the rocket-equation burn-time formula of spec
section 4.1 with an explicit `g0` parameter,
`burnTime = (m − m·e^(−Δv/(Isp·g0))) / (F / (Isp·g0))`, used to compare the
source's fixed-constant `G` against the spec's "body's surface gravity". -/
def rocket_eq (eO : ℚ → ℚ) (g0 m isp dv F : ℚ) : Except PyError ℚ :=
  match pydiv dv (isp * g0) with
  | .error e => .error e
  | .ok x =>
    match pydiv m (eO x) with
    | .error e => .error e
    | .ok q =>
      match pydiv F (isp * g0) with
      | .error e => .error e
      | .ok denom => pydiv (m - q) denom

-- --------------------------------------------------------------------------
-- inc_to_heading (launch.py lines 358-373)
-- --------------------------------------------------------------------------

/-- Source `GuidanceController.inc_to_heading`: inclination (degrees) to compass
heading; out-of-range input falls back to 90. -/
def inc_to_heading (inc : ℚ) : ℚ :=
  if inc > 180 ∨ inc < -180 then 90
  else
    let value := if inc ≥ 0 then 90 - inc else -(inc - 90)
    if value < 0 then value + 360 else value

-- --------------------------------------------------------------------------
-- GuidanceController (launch.py lines 285-397)
-- --------------------------------------------------------------------------

/-- Source `set_sas_mode`: engage SAS (disengaging the autopilot) when not already
on, then write the mode when it differs. -/
def set_sas_mode (m : SasMode) (w : World) : World :=
  let w1 := if w.sas then w else { w with apEngaged := false, sas := true }
  if w1.sasMode = m then w1 else { w1 with sasMode := m }

/-- Source `GuidanceController.pitch`: Penner ease-out pitch target, heading from
`inc_to_heading(INCLINATION)`, roll forced when `FORCE_ROLL`. -/
def g_pitch (w : World) : World :=
  let progress := w.v.mean_altitude / GRAV_TURN_FINISH
  let target_pitch := 90 - (-90 * progress * (progress - 2))
  let target_heading := inc_to_heading INCLINATION
  let w1 := { w with apEngaged := true, targetPitch := target_pitch,
                     targetHeading := target_heading }
  if FORCE_ROLL then { w1 with targetRoll := some ROLL } else w1

/-- Source `GuidanceController.process` CIRCULARIZE branch: `try target_node()
except: prograde()`.  Setting SAS maneuver mode raises when no node exists;
the SAS-engage prefix of `set_sas_mode` has already run when that raise is
caught, after which the handler runs `prograde()`. -/
def g_target_or_prograde (w : World) : World :=
  let w1 := if w.sas then w else { w with apEngaged := false, sas := true }
  if w1.nodes = [] then set_sas_mode .prograde w1
  else if w1.sasMode = .maneuver then w1 else { w1 with sasMode := .maneuver }

/-- Source `GuidanceController.process`: per-phase attitude control (the phases are
mutually exclusive, so the source's successive `if`s select one branch). -/
def guidance_process (w : World) : World :=
  match w.status with
  | .prelaunch => set_sas_mode .stabilityAssist w
  | .pitch => g_pitch w
  | .coast => set_sas_mode .prograde w
  | .circularize => g_target_or_prograde w
  | .finalize => set_sas_mode .prograde w
  | _ => w

/-- Source `GuidanceController.create_circularize_node` (lines 386-397): vis-viva
`v1 = sqrt(gp*(2/apo - 1/sma))`, `v2 = sqrt(gp*(2/apo - 1/apo))`, adds a node
at `ut + time_to_apoapsis` with prograde `v2 - v1`.  Divisions and square
roots can raise; a raise propagates with the world unchanged. -/
def create_circularize_node (sO : ℚ → ℚ) (w : World) :
    Except (PyError × World) World :=
  let gp := w.v.gravitational_parameter
  let r : Except PyError ℚ :=
    match pydiv 2 w.v.apoapsis with
    | .error e => .error e
    | .ok a =>
      match pydiv 1 w.v.semi_major_axis with
      | .error e => .error e
      | .ok b =>
        match pysqrt sO (gp * (a - b)) with
        | .error e => .error e
        | .ok v1 =>
          match pydiv 1 w.v.apoapsis with
          | .error e => .error e
          | .ok c =>
            match pysqrt sO (gp * (a - c)) with
            | .error e => .error e
            | .ok v2 => .ok (v2 - v1)
  match r with
  | .error e => .error (e, w)
  | .ok dv =>
    .ok { w with nodes := w.nodes ++ [⟨w.v.ut + w.v.time_to_apoapsis, dv⟩] }

/-- Source `GuidanceController.set_status` (lines 375-384): store the status and,
when it is COAST, create the circularization node unconditionally. -/
def guidance_set_status (sO : ℚ → ℚ) (s : Status) (w : World) :
    Except (PyError × World) World :=
  let w1 := { w with status := s }
  if s = .coast then create_circularize_node sO w1 else .ok w1

-- --------------------------------------------------------------------------
-- ThrottleController (launch.py lines 399-428; alt variant lines 937-947)
-- --------------------------------------------------------------------------

/-- Source `ThrottleController.process` (HEAD): full throttle in PRELAUNCH, zero in
COAST/FINALIZE/DONE, and in CIRCULARIZE open the throttle exactly when
`ut + burnTime/2 >= node.ut` (node time is to be the burn midpoint). -/
def throttle_process (eO : ℚ → ℚ) (w : World) :
    Except (PyError × World) World :=
  if w.status = .prelaunch then .ok { w with throttle := 1 }
  else if w.status = .coast ∨ w.status = .finalize ∨ w.status = .done then
    .ok { w with throttle := 0 }
  else if w.status = .circularize then
    match calc_burn_time eO w with
    | .error e => .error (e, w)
    | .ok bt =>
      match w.nodes with
      | [] => .error (.indexError, w)
      | n :: _ =>
        if w.v.ut + bt / 2 ≥ n.ut then .ok { w with throttle := 1 }
        else .ok { w with throttle := 0 }
  else .ok w

/-- Source `ThrottleController.process` of the second merge variant (lines
938-947): CIRCULARIZE sets full throttle unconditionally, with no burn-time
midpoint test. -/
def throttle_process_alt (w : World) : World :=
  if w.status = .prelaunch then { w with throttle := 1 }
  else if w.status = .coast ∨ w.status = .finalize ∨ w.status = .done then
    { w with throttle := 0 }
  else if w.status = .circularize then { w with throttle := 1 }
  else w

-- --------------------------------------------------------------------------
-- StagingController (launch.py lines 442-485)
-- --------------------------------------------------------------------------

/-- Source `resource().max(fueltype) > 0` for the decouple stage
`current_stage - 1`. -/
def carries_fuel (w : World) (ft : FuelType) : Prop :=
  w.v.resourceMax (w.current_stage - 1) ft > 0

instance (w : World) (ft : FuelType) : Decidable (carries_fuel w ft) := by
  unfold carries_fuel; infer_instance

/-- Source `resource().amount(fueltype) > 0` for the decouple stage
`current_stage - 1`. -/
def has_fuel (w : World) (ft : FuelType) : Prop :=
  w.v.resourceAmount (w.current_stage - 1) ft > 0

instance (w : World) (ft : FuelType) : Decidable (has_fuel w ft) := by
  unfold has_fuel; infer_instance

/-- Source `vessel.control.activate_next_stage()`. -/
def activate_next_stage (w : World) : World :=
  { w with current_stage := w.current_stage - 1 }

/-- Source `StagingController.process` (lines 443-459): no action at or below
`MAX_AUTO_STAGE`; otherwise the loop over the two fuel types unrolled —
activate on the first carried-but-empty fuel type, or when no tracked fuel
type is carried at all (pure interstage). -/
def staging_process (w : World) : World :=
  if w.current_stage ≤ MAX_AUTO_STAGE then w
  else if carries_fuel w .liquid ∧ ¬ has_fuel w .liquid then
    activate_next_stage w
  else if carries_fuel w .solid ∧ ¬ has_fuel w .solid then
    activate_next_stage w
  else if ¬ carries_fuel w .liquid ∧ ¬ carries_fuel w .solid then
    activate_next_stage w
  else w

-- --------------------------------------------------------------------------
-- WarpController (launch.py lines 487-519)
-- --------------------------------------------------------------------------

/-- Source `WarpController.process`: max physics warp while coasting in atmosphere;
once out of atmosphere and still under physics warp, drop to real time and
warp on-rails to `node.ut - burnTime/2 - 5`. -/
def warp_process (eO : ℚ → ℚ) (w : World) : Except (PyError × World) World :=
  if w.status = .coast ∧ w.v.mean_altitude ≤ w.v.atmosphere_depth then
    .ok { w with physics_warp_factor := MAX_PHYSICS_WARP }
  else if w.status = .coast ∧ w.physics_warp_factor > 0 then
    let w1 := { w with physics_warp_factor := 0 }
    match calc_burn_time eO w1 with
    | .error e => .error (e, w1)
    | .ok bt =>
      match w1.nodes with
      | [] => .error (.indexError, w1)
      | n :: _ => .ok { w1 with warpTarget := some (n.ut - bt / 2 - 5) }
  else .ok w

-- --------------------------------------------------------------------------
-- FinalizeController (HEAD lines 521-524; alt variant lines 1039-1040)
-- --------------------------------------------------------------------------

/-- Source `FinalizeController.process` (HEAD): in FINALIZE remove all maneuver
nodes; nothing else. -/
def finalize_process (w : World) : World :=
  if w.status = .finalize then { w with nodes := [] } else w

/-- Source `FinalizeController` of the second merge variant is `pass`: its
inherited `process` does nothing. -/
def finalize_process_alt (w : World) : World := w

-- --------------------------------------------------------------------------
-- ModularAscentControl (launch.py lines 116-256; alt 656-794)
-- --------------------------------------------------------------------------

/-- Source `ModularAscentControl.telemetry`: reports the snapshot to the telemetry
sink (modelled as a counter; the display itself is presentation). -/
def telem_tick (w : World) : World :=
  { w with telemetryCount := w.telemetryCount + 1 }

/-- Source `ModularAscentControl.set_status` (HEAD, lines 179-192): report the new
phase name to the status sink, store the phase, and propagate it to every
controller; the guidance controller's `set_status` creates the
circularization node on COAST. -/
def set_status (sO : ℚ → ℚ) (s : Status) (w : World) :
    Except (PyError × World) World :=
  let w1 := { w with statusLog := s.name :: w.statusLog }
  guidance_set_status sO s w1

/-- Source `ModularAscentControl.set_status` of the second merge variant (lines
719-732): identical except the reported line is `'Progressing to ' + name`. -/
def set_status_alt (sO : ℚ → ℚ) (s : Status) (w : World) :
    Except (PyError × World) World :=
  let w1 := { w with statusLog := ("Progressing to " ++ s.name) :: w.statusLog }
  guidance_set_status sO s w1

/-- Source `ModularAscentControl.update_status` (HEAD, lines 194-244): the phase
transition table.  The COAST branch reads `nodes[0]` and `calc_burn_time()`
(either can raise); the CIRCULARIZE exit is
`periapsis > 0.90*ORBIT_ALT or apoapsis > 1.10*ORBIT_ALT`. -/
def update_status (eO sO : ℚ → ℚ) (w : World) : Except (PyError × World) World :=
  match w.status with
  | .prelaunch => set_status sO .launch w
  | .launch => set_status sO .liftoff w
  | .liftoff =>
    if w.v.mean_altitude > 100 ∧ w.v.orbit_speed > 50 then
      set_status sO .pitch w
    else .ok w
  | .pitch =>
    if w.v.apoapsis_altitude > ORBIT_ALT * (95 / 100) then
      set_status sO .coast w
    else .ok w
  | .coast =>
    match w.nodes with
    | [] => .error (.indexError, w)
    | n :: _ =>
      match calc_burn_time eO w with
      | .error e => .error (e, w)
      | .ok bt =>
        if n.ut - w.v.ut ≤ bt then set_status sO .circularize w else .ok w
  | .circularize =>
    if w.v.periapsis_altitude > ORBIT_ALT * (90 / 100) ∨
       w.v.apoapsis_altitude > ORBIT_ALT * (110 / 100) then
      set_status sO .finalize w
    else .ok w
  | .finalize => set_status sO .done w
  | _ => .ok w

/-- Source `ModularAscentControl.update_status` of the second merge variant (lines
734-782): same table except `ORBIT_ALT = 95000` and the CIRCULARIZE exit is
`periapsis > 0.95*ORBIT_ALT` only — the apoapsis overshoot test is absent. -/
def update_status_alt (eO sO : ℚ → ℚ) (w : World) :
    Except (PyError × World) World :=
  match w.status with
  | .prelaunch => set_status_alt sO .launch w
  | .launch => set_status_alt sO .liftoff w
  | .liftoff =>
    if w.v.mean_altitude > 100 ∧ w.v.orbit_speed > 50 then
      set_status_alt sO .pitch w
    else .ok w
  | .pitch =>
    if w.v.apoapsis_altitude > ORBIT_ALT_alt * (95 / 100) then
      set_status_alt sO .coast w
    else .ok w
  | .coast =>
    match w.nodes with
    | [] => .error (.indexError, w)
    | n :: _ =>
      match calc_burn_time eO w with
      | .error e => .error (e, w)
      | .ok bt =>
        if n.ut - w.v.ut ≤ bt then set_status_alt sO .circularize w else .ok w
  | .circularize =>
    if w.v.periapsis_altitude > ORBIT_ALT_alt * (95 / 100) then
      set_status_alt sO .finalize w
    else .ok w
  | .finalize => set_status_alt sO .done w
  | _ => .ok w

/-- One iteration of the `to_orbit` while-loop body (lines 163-171):
telemetry, then the five controllers in fixed order, then `update_status`.
An uncaught raise anywhere propagates with the state at the raise point. -/
def tick (eO sO : ℚ → ℚ) (w : World) : Except (PyError × World) World :=
  match throttle_process eO (guidance_process (telem_tick w)) with
  | .error e => .error e
  | .ok w2 =>
    match warp_process eO (staging_process w2) with
    | .error e => .error e
    | .ok w4 => update_status eO sO (finalize_process w4)

/-- The `to_orbit` while-loop, run for at most `fuel` ticks; the environment
`env` supplies a fresh sensor snapshot before each tick (telemetry is read
live from the vehicle).  The loop stops at DONE; a raise terminates it with
the error. -/
def run (eO sO : ℚ → ℚ) (env : Nat → Telem) : Nat → World →
    Except (PyError × World) World
  | 0, w => .ok w
  | n + 1, w =>
    if w.status = .done then .ok w
    else
      match tick eO sO { w with v := env n } with
      | .ok w' => run eO sO env n w'
      | .error e => .error e

/-- Source `ModularAscentControl.to_orbit` (lines 161-171): set PRELAUNCH, then the
tick loop. -/
def to_orbit (eO sO : ℚ → ℚ) (env : Nat → Telem) (fuel : Nat) (w : World) :
    Except (PyError × World) World :=
  match set_status sO .prelaunch w with
  | .error e => .error e
  | .ok w1 => run eO sO env fuel w1

/-- The world at termination, whether the loop returned normally or an
exception propagated out of it. -/
def resultWorld (r : Except (PyError × World) World) : World :=
  match r with
  | .ok w => w
  | .error (_, w) => w

/-- Whether the loop terminated by an uncaught exception. -/
def isFault (r : Except (PyError × World) World) : Bool :=
  match r with
  | .ok _ => false
  | .error _ => true

/-- Decidable equality of fallible results, used to evaluate closed
statements about `calc_burn_time`. -/
instance : DecidableEq (Except PyError ℚ) := fun a b =>
  match a, b with
  | .ok x, .ok y =>
    if h : x = y then .isTrue (by rw [h])
    else .isFalse (fun hc => h (by cases hc; rfl))
  | .error e, .error f =>
    if h : e = f then .isTrue (by rw [h])
    else .isFalse (fun hc => h (by cases hc; rfl))
  | .ok _, .error _ => .isFalse (fun hc => by cases hc)
  | .error _, .ok _ => .isFalse (fun hc => by cases hc)

-- --------------------------------------------------------------------------
-- Concrete states used to evaluate closed statements
-- --------------------------------------------------------------------------

/-- A baseline sensor snapshot (vehicle on a 700 km apoapsis orbit with unit
mass/thrust/Isp). -/
def t_base : Telem :=
  { ut := 0, mass := 1, specific_impulse := 1, available_thrust := 1,
    apoapsis_altitude := 0, periapsis_altitude := 0,
    apoapsis := 700000, semi_major_axis := 700000,
    time_to_apoapsis := 0, orbit_speed := 0, mean_altitude := 0,
    atmosphere_depth := 0, gravitational_parameter := 700000,
    surface_gravity := 982 / 100,
    resourceMax := fun _ _ => 0, resourceAmount := fun _ _ => 0 }

/-- A baseline mission state as built by `__init__` (status IDLE, no nodes). -/
def w_base : World :=
  { status := .idle, statusLog := [], telemetryCount := 0, throttle := 0,
    sas := false, sasMode := .stabilityAssist, apEngaged := false,
    targetPitch := 0, targetHeading := 0, targetRoll := none, nodes := [],
    current_stage := 0, physics_warp_factor := 0, warpTarget := none,
    solarDeployed := false, v := t_base }

-- ==========================================================================
-- Theorems
-- ==========================================================================

-- --------------------------------------------------------------------------
-- C9: heading conversion
-- --------------------------------------------------------------------------

/-- C9: `inc_to_heading 0 = 90`, `inc_to_heading 90 = 0`,
`inc_to_heading (-90) = 180`, `inc_to_heading 200 = 90` (out-of-range
fallback), and for every input the heading lies in [0, 360). -/
theorem inc_to_heading_spec :
    inc_to_heading 0 = 90 ∧ inc_to_heading 90 = 0 ∧
    inc_to_heading (-90) = 180 ∧ inc_to_heading 200 = 90 ∧
    ∀ inc : ℚ, 0 ≤ inc_to_heading inc ∧ inc_to_heading inc < 360 := by
  refine ⟨by norm_num [inc_to_heading], by norm_num [inc_to_heading],
    by norm_num [inc_to_heading], by norm_num [inc_to_heading], ?_⟩
  intro inc
  simp only [inc_to_heading]
  split
  · norm_num
  · rename_i h
    push_neg at h
    obtain ⟨h1, h2⟩ := h
    by_cases h3 : inc ≥ 0 <;> simp only [h3, if_true, if_false] <;> split <;>
      constructor <;> linarith

-- --------------------------------------------------------------------------
-- C2: calc_burn_time under missing node / zero thrust
-- --------------------------------------------------------------------------

/-- C2 (amended): `calc_burn_time` is not guarded: with no maneuver node the
`nodes[0]` lookup raises IndexError, and with a node, nonzero Isp and zero
available thrust the division by `F / (Isp*G)` raises ZeroDivisionError. -/
theorem calc_burn_time_raises (eO : ℚ → ℚ) (w : World) :
    (w.nodes = [] → calc_burn_time eO w = .error .indexError) ∧
    (∀ n rest, w.nodes = n :: rest → w.v.specific_impulse ≠ 0 →
      eO (n.delta_v / (w.v.specific_impulse * G)) ≠ 0 →
      w.v.available_thrust = 0 →
      calc_burn_time eO w = .error .zeroDivisionError) := by
  constructor
  · intro h
    simp [calc_burn_time, h]
  · intro n rest hn hisp he hF
    have hG : (G : ℚ) ≠ 0 := by norm_num [G]
    have hig : w.v.specific_impulse * G ≠ 0 := mul_ne_zero hisp hG
    simp [calc_burn_time, hn, pydiv, hig, he, hF]

/-- World with no maneuver node (coasting before node creation). -/
def wNoNode : World := { w_base with status := .coast }

/-- World with a node but zero available thrust. -/
def wZeroF : World :=
  { w_base with
    status := .circularize
    nodes := [⟨0, 0⟩]
    v := { t_base with available_thrust := 0 } }

/-- Witness for C2's theorem at concrete states. -/
theorem calc_burn_time_raises_witness :
    calc_burn_time expQ wNoNode = .error .indexError ∧
    calc_burn_time expQ wZeroF = .error .zeroDivisionError :=
  ⟨(calc_burn_time_raises expQ wNoNode).1 rfl,
   (calc_burn_time_raises expQ wZeroF).2 ⟨0, 0⟩ [] rfl
     (by norm_num [wZeroF, t_base])
     (by norm_num [wZeroF, t_base, Node.delta_v, expQ, List.range_succ])
     rfl⟩

/-- C2 counterexample: at concrete states the computation aborts with an
exception — the node lookup raises IndexError with no node present, and the
division raises ZeroDivisionError at zero thrust — instead of returning a
guarded "not yet ready to burn" value. -/
theorem calc_burn_time_aborts_cex :
    calc_burn_time expQ wNoNode = .error .indexError ∧
    wZeroF.v.available_thrust = 0 ∧
    calc_burn_time expQ wZeroF = .error .zeroDivisionError := by
  refine ⟨rfl, rfl, ?_⟩
  norm_num [calc_burn_time, wZeroF, t_base, pydiv, Node.delta_v, expQ,
    List.range_succ, G]

-- --------------------------------------------------------------------------
-- C7: burn time uses the fixed constant G, not live surface gravity
-- --------------------------------------------------------------------------

/-- C7 (amended): `calc_burn_time` evaluates the rocket-equation formula with
the fixed module constant `G = 9.82` as g0, and its result is insensitive to
the orbited body's surface gravity. -/
theorem calc_burn_time_fixed_G (eO : ℚ → ℚ) (w : World) :
    calc_burn_time eO w =
      (match w.nodes with
       | [] => .error .indexError
       | n :: _ => rocket_eq eO G w.v.mass w.v.specific_impulse n.delta_v
            w.v.available_thrust) ∧
    ∀ g : ℚ, calc_burn_time eO
        { w with v := { w.v with surface_gravity := g } } =
      calc_burn_time eO w := by
  constructor
  · cases h : w.nodes with
    | nil => simp only [calc_burn_time, h]
    | cons n rest => simp only [calc_burn_time, h]; rfl
  · intro g
    rfl

/-- World for the C7 counterexample: unit mass/Isp/thrust, a 1 m/s node, and
a body surface gravity of 1 (differing from the constant 9.82). -/
def w7 : World :=
  { w_base with
    status := .circularize
    nodes := [⟨0, 1⟩]
    v := { t_base with surface_gravity := 1 } }

/-- C7 counterexample: with a node present and positive thrust, the computed
burn time differs from the rocket-equation formula evaluated with the body's
surface gravity — the code divides by the fixed constant 9.82 instead. -/
theorem calc_burn_time_not_surface_gravity_cex :
    w7.nodes = [⟨0, 1⟩] ∧ 0 < w7.v.available_thrust ∧
    w7.v.surface_gravity = 1 ∧
    calc_burn_time expQ w7 ≠
      rocket_eq expQ w7.v.surface_gravity w7.v.mass w7.v.specific_impulse
        (Node.delta_v ⟨0, 1⟩) w7.v.available_thrust := by
  refine ⟨rfl, by norm_num [w7, t_base], rfl, ?_⟩
  norm_num [calc_burn_time, rocket_eq, w7, t_base, pydiv, Node.delta_v, expQ,
    List.range_succ, Nat.factorial, G]

-- --------------------------------------------------------------------------
-- C10: COAST entry adds a node unconditionally
-- --------------------------------------------------------------------------

/-- C10: `GuidanceController.set_status` with COAST appends exactly one new
node — prograde delta-v `v2 - v1` from vis-viva, scheduled at
`ut + time_to_apoapsis` — onto whatever nodes already exist, with no check
for an existing node; so a second COAST entry would leave two nodes. -/
theorem coast_entry_adds_node (sO : ℚ → ℚ) (w : World)
    (ha : w.v.apoapsis ≠ 0) (hs : w.v.semi_major_axis ≠ 0)
    (h1 : 0 ≤ w.v.gravitational_parameter *
      (2 / w.v.apoapsis - 1 / w.v.semi_major_axis))
    (h2 : 0 ≤ w.v.gravitational_parameter *
      (2 / w.v.apoapsis - 1 / w.v.apoapsis)) :
    guidance_set_status sO .coast w =
      .ok { w with
            status := .coast
            nodes := w.nodes ++
              [⟨w.v.ut + w.v.time_to_apoapsis,
                sO (w.v.gravitational_parameter *
                      (2 / w.v.apoapsis - 1 / w.v.apoapsis)) -
                sO (w.v.gravitational_parameter *
                      (2 / w.v.apoapsis - 1 / w.v.semi_major_axis))⟩] } := by
  simp [guidance_set_status, create_circularize_node, pydiv, pysqrt, ha, hs,
    not_lt.mpr h1, not_lt.mpr h2, -one_div]

/-- Witness for C10's theorem: on a 700 km circular orbit with a node already
present, COAST entry appends a second node. -/
theorem coast_entry_adds_node_witness :
    guidance_set_status (fun x => x) .coast
        { w_base with nodes := [⟨5, 3⟩] } =
      .ok { { w_base with nodes := [⟨5, 3⟩] } with
            status := .coast
            nodes := [⟨5, 3⟩] ++
              [⟨t_base.ut + t_base.time_to_apoapsis,
                (t_base.gravitational_parameter *
                    (2 / t_base.apoapsis - 1 / t_base.apoapsis)) -
                (t_base.gravitational_parameter *
                    (2 / t_base.apoapsis - 1 / t_base.semi_major_axis))⟩] } :=
  coast_entry_adds_node (fun x => x) { w_base with nodes := [⟨5, 3⟩] }
    (by norm_num [w_base, t_base]) (by norm_num [w_base, t_base])
    (by norm_num [w_base, t_base]) (by norm_num [w_base, t_base])

-- --------------------------------------------------------------------------
-- C4: staging controller performs no debris cleanup
-- --------------------------------------------------------------------------

/-- C4 (amended): the staging controller implements no debris cleanup: for
every state, `process()` leaves the throttle and phase untouched and changes
the current stage by at most one activation. -/
theorem staging_no_debris_cleanup (w : World) :
    (staging_process w).throttle = w.throttle ∧
    (staging_process w).status = w.status ∧
    ((staging_process w).current_stage = w.current_stage ∨
     (staging_process w).current_stage = w.current_stage - 1) := by
  unfold staging_process activate_next_stage
  split
  · exact ⟨rfl, rfl, Or.inl rfl⟩
  · split
    · exact ⟨rfl, rfl, Or.inr rfl⟩
    · split
      · exact ⟨rfl, rfl, Or.inr rfl⟩
      · split
        · exact ⟨rfl, rfl, Or.inr rfl⟩
        · exact ⟨rfl, rfl, Or.inl rfl⟩

/-- State matching the claimed debris-cleanup scenario: Circularize,
periapsis 15 km, current stage `MAX_AUTO_STAGE + 3`, fuel still present in
the decouple stage. -/
def w4 : World :=
  { w_base with
    status := .circularize
    current_stage := MAX_AUTO_STAGE + 3
    throttle := 1 / 2
    v := { t_base with
           periapsis_altitude := 15000
           resourceMax := fun _ ft =>
             match ft with
             | .liquid => 100
             | .solid => 0
           resourceAmount := fun _ ft =>
             match ft with
             | .liquid => 50
             | .solid => 0 } }

/-- C4 counterexample: in the claimed scenario (Circularize, periapsis above
the safety floor, stage `maxAutoStage+3`), `process()` neither reduces the
stage to `maxAutoStage+1` nor touches the throttle — no cleanup exists. -/
theorem staging_no_cleanup_cex :
    w4.status = .circularize ∧ w4.v.periapsis_altitude = 15000 ∧
    w4.current_stage = MAX_AUTO_STAGE + 3 ∧
    (staging_process w4).current_stage ≠ MAX_AUTO_STAGE + 1 ∧
    (staging_process w4).throttle = w4.throttle := by
  have hw : staging_process w4 = w4 := by
    norm_num [staging_process, carries_fuel, has_fuel, w4, t_base,
      MAX_AUTO_STAGE]
  refine ⟨rfl, rfl, rfl, ?_, by rw [hw]⟩
  rw [hw]
  norm_num [w4, MAX_AUTO_STAGE]

-- --------------------------------------------------------------------------
-- C8: finalize controller
-- --------------------------------------------------------------------------

/-- C8 (amended): in FINALIZE the HEAD finalize controller removes all
maneuver nodes and is idempotent, but it never touches the solar panels
(the `DEPLOY_SOLAR` configuration is unused); the second merge variant's
finalize controller does nothing at all. -/
theorem finalize_removes_nodes_only (w : World) (hst : w.status = .finalize) :
    finalize_process w = { w with nodes := [] } ∧
    finalize_process (finalize_process w) = finalize_process w ∧
    (finalize_process w).solarDeployed = w.solarDeployed ∧
    finalize_process_alt w = w := by
  have h1 : finalize_process w = { w with nodes := [] } := by
    simp [finalize_process, hst]
  refine ⟨h1, ?_, by rw [h1], rfl⟩
  rw [h1]
  simp [finalize_process, hst]

/-- A FINALIZE state with a pending node and undeployed solar panels. -/
def w8 : World := { w_base with status := .finalize, nodes := [⟨0, 1⟩] }

/-- Witness for C8's theorem at a concrete FINALIZE state. -/
theorem finalize_removes_nodes_only_witness :
    finalize_process w8 = { w8 with nodes := [] } ∧
    finalize_process (finalize_process w8) = finalize_process w8 ∧
    (finalize_process w8).solarDeployed = w8.solarDeployed ∧
    finalize_process_alt w8 = w8 :=
  finalize_removes_nodes_only w8 rfl

/-- C8 counterexample: with solar-panel deployment configured
(`DEPLOY_SOLAR = true`) and the vehicle in FINALIZE with panels undeployed,
`process()` leaves the panels undeployed — deployment is never performed. -/
theorem finalize_never_deploys_solar_cex :
    DEPLOY_SOLAR = true ∧ w8.status = .finalize ∧ w8.solarDeployed = false ∧
    (finalize_process w8).solarDeployed = false := by
  refine ⟨rfl, rfl, rfl, ?_⟩
  simp [finalize_process, w8, w_base]

-- --------------------------------------------------------------------------
-- C6: throttle in Circularize
-- --------------------------------------------------------------------------

/-- C6 (amended): in CIRCULARIZE with a node present and the burn-time
computation succeeding, the HEAD throttle controller opens the throttle
exactly when `ut + burnTime/2 >= node.ut` and holds zero otherwise; the
second merge variant's throttle controller instead sets full throttle
unconditionally in CIRCULARIZE. -/
theorem circ_throttle_midpoint (eO : ℚ → ℚ) (w : World) (n : Node)
    (rest : List Node) (bt : ℚ) (hst : w.status = .circularize)
    (hn : w.nodes = n :: rest) (hbt : calc_burn_time eO w = .ok bt) :
    throttle_process eO w =
      .ok { w with throttle := if w.v.ut + bt / 2 ≥ n.ut then 1 else 0 } ∧
    (throttle_process_alt w).throttle = 1 := by
  constructor
  · simp only [throttle_process, hst, hbt, hn]
    simp only [reduceCtorEq, if_false, false_or, or_self, if_true, reduceIte]
    split
    · rename_i h
      simp [h]
    · rename_i h
      simp [h]
  · simp [throttle_process_alt, hst]

/-- A CIRCULARIZE state whose node is 100 s in the future with zero
delta-v (burn time 0). -/
def w6 : World := { w_base with status := .circularize, nodes := [⟨100, 0⟩] }

/-- Witness for C6's theorem at a concrete CIRCULARIZE state. -/
theorem circ_throttle_midpoint_witness :
    throttle_process expQ w6 =
      .ok { w6 with
            throttle := if w6.v.ut + 0 / 2 ≥ (Node.mk 100 0).ut then 1
                        else 0 } ∧
    (throttle_process_alt w6).throttle = 1 :=
  circ_throttle_midpoint expQ w6 ⟨100, 0⟩ [] 0 rfl rfl
    (by norm_num [calc_burn_time, w6, w_base, t_base, pydiv, Node.delta_v,
      expQ, List.range_succ, Nat.factorial, G])

/-- C6 counterexample: in the second merge variant, with the node still
100 s away and burn time 0 (so `ut + bt/2 < node.ut`, where the claim
demands throttle 0.0), `process()` sets the throttle to 1.0. -/
theorem alt_throttle_unconditional_cex :
    w6.status = .circularize ∧ calc_burn_time expQ w6 = .ok 0 ∧
    ¬ (w6.v.ut + 0 / 2 ≥ (Node.mk 100 0).ut) ∧
    (throttle_process_alt w6).throttle = 1 := by
  refine ⟨rfl, ?_, by norm_num [w6, w_base, t_base], ?_⟩
  · norm_num [calc_burn_time, w6, w_base, t_base, pydiv, Node.delta_v, expQ,
      List.range_succ, Nat.factorial, G]
  · simp [throttle_process_alt, w6]

-- --------------------------------------------------------------------------
-- C5: Circularize exit predicate
-- --------------------------------------------------------------------------

/-- Node creation leaves the stored phase unchanged, whether or not it
raised. -/
lemma create_node_status (sO : ℚ → ℚ) (w : World) :
    (resultWorld (create_circularize_node sO w)).status = w.status := by
  simp only [create_circularize_node]
  split <;> rfl

/-- The guidance controller's `set_status` leaves the stored phase equal to
the requested one, whether or not node creation raised. -/
lemma guidance_set_status_status (sO : ℚ → ℚ) (s : Status) (w : World) :
    (resultWorld (guidance_set_status sO s w)).status = s := by
  simp only [guidance_set_status]
  split
  · exact create_node_status sO _
  · rfl

/-- The orchestrator's `set_status` always leaves the stored phase equal to
the requested one, whether or not node creation raised. -/
lemma set_status_result_status (sO : ℚ → ℚ) (s : Status) (w : World) :
    (resultWorld (set_status sO s w)).status = s := by
  simp only [set_status]
  exact guidance_set_status_status sO s _

/-- The alt variant's `set_status` also leaves the stored phase equal to the
requested one. -/
lemma set_status_alt_result_status (sO : ℚ → ℚ) (s : Status) (w : World) :
    (resultWorld (set_status_alt sO s w)).status = s := by
  simp only [set_status_alt]
  exact guidance_set_status_status sO s _

/-- C5 (amended): while in CIRCULARIZE, the HEAD `update_status` advances to
FINALIZE exactly when periapsis > 0.90·target or apoapsis > 1.10·target
(target 100000) and stays otherwise; the second merge variant advances
exactly when periapsis > 0.95·target (target 95000), ignoring apoapsis. -/
theorem circ_exit_predicates (eO sO : ℚ → ℚ) (w : World)
    (hst : w.status = .circularize) :
    (resultWorld (update_status eO sO w)).status =
      (if w.v.periapsis_altitude > ORBIT_ALT * (90 / 100) ∨
          w.v.apoapsis_altitude > ORBIT_ALT * (110 / 100)
       then Status.finalize else Status.circularize) ∧
    (resultWorld (update_status_alt eO sO w)).status =
      (if w.v.periapsis_altitude > ORBIT_ALT_alt * (95 / 100)
       then Status.finalize else Status.circularize) := by
  constructor
  · unfold update_status
    rw [hst]
    dsimp only
    split
    · exact set_status_result_status sO .finalize w
    · simp [resultWorld, hst]
  · unfold update_status_alt
    rw [hst]
    dsimp only
    split
    · exact set_status_alt_result_status sO .finalize w
    · simp [resultWorld, hst]

/-- A CIRCULARIZE state with periapsis 95000 (above both thresholds). -/
def w5w : World :=
  { w_base with status := .circularize, v := { t_base with periapsis_altitude := 95000 } }

/-- Witness for C5's theorem at a concrete CIRCULARIZE state. -/
theorem circ_exit_predicates_witness :
    (resultWorld (update_status expQ (fun x => x) w5w)).status =
      (if w5w.v.periapsis_altitude > ORBIT_ALT * (90 / 100) ∨
          w5w.v.apoapsis_altitude > ORBIT_ALT * (110 / 100)
       then Status.finalize else Status.circularize) ∧
    (resultWorld (update_status_alt expQ (fun x => x) w5w)).status =
      (if w5w.v.periapsis_altitude > ORBIT_ALT_alt * (95 / 100)
       then Status.finalize else Status.circularize) :=
  circ_exit_predicates expQ (fun x => x) w5w rfl

/-- A CIRCULARIZE state with a ballooned apoapsis (120000) and low
periapsis. -/
def w5 : World :=
  { w_base with status := .circularize, v := { t_base with apoapsis_altitude := 120000 } }

/-- C5 counterexample: under the second merge variant, with apoapsis above
1.10·target (where the claimed predicate demands advancing to FINALIZE) and
periapsis below 0.90·target, `update_status` leaves the phase in
CIRCULARIZE. -/
theorem alt_ignores_apoapsis_cex :
    w5.status = .circularize ∧
    w5.v.apoapsis_altitude > ORBIT_ALT_alt * (110 / 100) ∧
    ¬ (w5.v.periapsis_altitude > ORBIT_ALT_alt * (90 / 100)) ∧
    (resultWorld (update_status_alt expQ (fun x => x) w5)).status =
      .circularize := by
  refine ⟨rfl, by norm_num [w5, t_base, ORBIT_ALT_alt],
    by norm_num [w5, t_base, ORBIT_ALT_alt], ?_⟩
  norm_num [update_status_alt, w5, t_base, ORBIT_ALT_alt, resultWorld]

-- --------------------------------------------------------------------------
-- Frame lemmas: controllers never touch the phase or the status log
-- --------------------------------------------------------------------------

lemma telem_tick_frame (w : World) :
    (telem_tick w).status = w.status ∧
    (telem_tick w).statusLog = w.statusLog :=
  ⟨rfl, rfl⟩

lemma set_sas_mode_frame (m : SasMode) (w : World) :
    (set_sas_mode m w).status = w.status ∧
    (set_sas_mode m w).statusLog = w.statusLog := by
  simp only [set_sas_mode]
  split <;> split <;> exact ⟨rfl, rfl⟩

lemma g_pitch_frame (w : World) :
    (g_pitch w).status = w.status ∧ (g_pitch w).statusLog = w.statusLog := by
  simp only [g_pitch]
  split <;> exact ⟨rfl, rfl⟩

lemma g_target_or_prograde_frame (w : World) :
    (g_target_or_prograde w).status = w.status ∧
    (g_target_or_prograde w).statusLog = w.statusLog := by
  simp only [g_target_or_prograde]
  split <;> split <;>
    first
      | exact ⟨by rw [(set_sas_mode_frame _ _).1],
               by rw [(set_sas_mode_frame _ _).2]⟩
      | exact ⟨rfl, rfl⟩
      | (split <;> exact ⟨rfl, rfl⟩)

lemma guidance_process_frame (w : World) :
    (guidance_process w).status = w.status ∧
    (guidance_process w).statusLog = w.statusLog := by
  unfold guidance_process
  cases hst : w.status <;> dsimp only
  case idle => exact ⟨hst, rfl⟩
  case launch => exact ⟨hst, rfl⟩
  case liftoff => exact ⟨hst, rfl⟩
  case done => exact ⟨hst, rfl⟩
  case prelaunch =>
    rw [(set_sas_mode_frame _ _).1, (set_sas_mode_frame _ _).2]
    exact ⟨hst, rfl⟩
  case pitch =>
    rw [(g_pitch_frame _).1, (g_pitch_frame _).2]
    exact ⟨hst, rfl⟩
  case coast =>
    rw [(set_sas_mode_frame _ _).1, (set_sas_mode_frame _ _).2]
    exact ⟨hst, rfl⟩
  case circularize =>
    rw [(g_target_or_prograde_frame _).1, (g_target_or_prograde_frame _).2]
    exact ⟨hst, rfl⟩
  case finalize =>
    rw [(set_sas_mode_frame _ _).1, (set_sas_mode_frame _ _).2]
    exact ⟨hst, rfl⟩

lemma staging_process_frame (w : World) :
    (staging_process w).status = w.status ∧
    (staging_process w).statusLog = w.statusLog := by
  unfold staging_process activate_next_stage
  split
  · exact ⟨rfl, rfl⟩
  · split
    · exact ⟨rfl, rfl⟩
    · split
      · exact ⟨rfl, rfl⟩
      · split
        · exact ⟨rfl, rfl⟩
        · exact ⟨rfl, rfl⟩

lemma finalize_process_frame (w : World) :
    (finalize_process w).status = w.status ∧
    (finalize_process w).statusLog = w.statusLog := by
  unfold finalize_process
  split <;> exact ⟨rfl, rfl⟩

lemma throttle_process_frame (eO : ℚ → ℚ) (w : World) :
    (resultWorld (throttle_process eO w)).status = w.status ∧
    (resultWorld (throttle_process eO w)).statusLog = w.statusLog := by
  unfold throttle_process
  split
  · exact ⟨rfl, rfl⟩
  · split
    · exact ⟨rfl, rfl⟩
    · split
      · cases calc_burn_time eO w with
        | error e => exact ⟨rfl, rfl⟩
        | ok bt =>
          cases w.nodes with
          | nil => exact ⟨rfl, rfl⟩
          | cons n rest =>
            dsimp only
            split <;> exact ⟨rfl, rfl⟩
      · exact ⟨rfl, rfl⟩

lemma warp_process_frame (eO : ℚ → ℚ) (w : World) :
    (resultWorld (warp_process eO w)).status = w.status ∧
    (resultWorld (warp_process eO w)).statusLog = w.statusLog := by
  simp only [warp_process]
  split
  · exact ⟨rfl, rfl⟩
  · split
    · cases calc_burn_time eO { w with physics_warp_factor := 0 } with
      | error e => exact ⟨rfl, rfl⟩
      | ok bt =>
        cases w.nodes with
        | nil => exact ⟨rfl, rfl⟩
        | cons n rest => exact ⟨rfl, rfl⟩
    · exact ⟨rfl, rfl⟩

-- --------------------------------------------------------------------------
-- set_status / update_status effect lemmas
-- --------------------------------------------------------------------------

lemma create_node_log (sO : ℚ → ℚ) (w : World) :
    (resultWorld (create_circularize_node sO w)).statusLog = w.statusLog := by
  simp only [create_circularize_node]
  split <;> rfl

lemma guidance_set_status_log (sO : ℚ → ℚ) (s : Status) (w : World) :
    (resultWorld (guidance_set_status sO s w)).statusLog = w.statusLog := by
  simp only [guidance_set_status]
  split
  · exact create_node_log sO _
  · rfl

lemma set_status_result_log (sO : ℚ → ℚ) (s : Status) (w : World) :
    (resultWorld (set_status sO s w)).statusLog = s.name :: w.statusLog := by
  simp only [set_status]
  exact guidance_set_status_log sO s _

/-- Helper: a bound on the phase value after a `set_status` call. -/
lemma le_of_set_status (sO : ℚ → ℚ) (a s : Status) (w : World)
    (h : a.val ≤ s.val) :
    a.val ≤ (resultWorld (set_status sO s w)).status.val := by
  rw [set_status_result_status]
  exact h

/-- Source `update_status` only ever moves the phase forward in the `Status.val`
order (the HEAD transition table only names later phases). -/
lemma update_status_mono (eO sO : ℚ → ℚ) (w : World) :
    w.status.val ≤ (resultWorld (update_status eO sO w)).status.val := by
  unfold update_status
  cases hst : w.status <;> dsimp only
  case idle => simp [resultWorld, hst]
  case done => simp [resultWorld, hst]
  case prelaunch => exact le_of_set_status sO _ _ _ (by decide)
  case launch => exact le_of_set_status sO _ _ _ (by decide)
  case liftoff =>
    split
    · exact le_of_set_status sO _ _ _ (by decide)
    · simp [resultWorld, hst]
  case pitch =>
    split
    · exact le_of_set_status sO _ _ _ (by decide)
    · simp [resultWorld, hst]
  case coast =>
    cases w.nodes with
    | nil => simp [resultWorld, hst]
    | cons n rest =>
      dsimp only
      cases calc_burn_time eO w with
      | error e => simp [resultWorld, hst]
      | ok bt =>
        dsimp only
        split
        · exact le_of_set_status sO _ _ _ (by decide)
        · simp [resultWorld, hst]
  case circularize =>
    split
    · exact le_of_set_status sO _ _ _ (by decide)
    · simp [resultWorld, hst]
  case finalize => exact le_of_set_status sO _ _ _ (by decide)

/-- Source `update_status` either leaves the status log unchanged or prepends a
single phase name. -/
lemma update_status_log (eO sO : ℚ → ℚ) (w : World) :
    (resultWorld (update_status eO sO w)).statusLog = w.statusLog ∨
    ∃ s : Status, (resultWorld (update_status eO sO w)).statusLog =
      s.name :: w.statusLog := by
  unfold update_status
  cases hst : w.status <;> dsimp only
  case idle => exact Or.inl rfl
  case done => exact Or.inl rfl
  case prelaunch => exact Or.inr ⟨.launch, set_status_result_log sO .launch w⟩
  case launch => exact Or.inr ⟨.liftoff, set_status_result_log sO .liftoff w⟩
  case liftoff =>
    split
    · exact Or.inr ⟨.pitch, set_status_result_log sO .pitch w⟩
    · exact Or.inl rfl
  case pitch =>
    split
    · exact Or.inr ⟨.coast, set_status_result_log sO .coast w⟩
    · exact Or.inl rfl
  case coast =>
    cases w.nodes with
    | nil => exact Or.inl rfl
    | cons n rest =>
      dsimp only
      cases calc_burn_time eO w with
      | error e => exact Or.inl rfl
      | ok bt =>
        dsimp only
        split
        · exact Or.inr ⟨.circularize, set_status_result_log sO .circularize w⟩
        · exact Or.inl rfl
  case circularize =>
    split
    · exact Or.inr ⟨.finalize, set_status_result_log sO .finalize w⟩
    · exact Or.inl rfl
  case finalize => exact Or.inr ⟨.done, set_status_result_log sO .done w⟩

lemma status_name_mem (s : Status) : s.name ∈ phaseNames := by
  cases s <;> simp [Status.name, phaseNames]

-- --------------------------------------------------------------------------
-- tick-level lemmas
-- --------------------------------------------------------------------------

/-- A single tick of the mission loop never moves the phase backward. -/
lemma tick_mono (eO sO : ℚ → ℚ) (w : World) :
    w.status.val ≤ (resultWorld (tick eO sO w)).status.val := by
  unfold tick
  have hg : (guidance_process (telem_tick w)).status = w.status :=
    (guidance_process_frame (telem_tick w)).1
  cases ht : throttle_process eO (guidance_process (telem_tick w)) with
  | error e =>
    have h1 := (throttle_process_frame eO (guidance_process (telem_tick w))).1
    rw [ht] at h1
    dsimp only
    rw [h1, hg]
  | ok w2 =>
    have h1 := (throttle_process_frame eO (guidance_process (telem_tick w))).1
    rw [ht] at h1
    have hw2 : w2.status = w.status := by rw [← hg, ← h1]; rfl
    have hs3 : (staging_process w2).status = w.status := by
      rw [(staging_process_frame w2).1, hw2]
    dsimp only
    cases hw : warp_process eO (staging_process w2) with
    | error e =>
      have h2 := (warp_process_frame eO (staging_process w2)).1
      rw [hw] at h2
      dsimp only
      rw [h2, hs3]
    | ok w4 =>
      have h2 := (warp_process_frame eO (staging_process w2)).1
      rw [hw] at h2
      have hw4 : w4.status = w.status := by rw [← hs3, ← h2]; rfl
      have hf : (finalize_process w4).status = w.status := by
        rw [(finalize_process_frame w4).1, hw4]
      dsimp only
      calc w.status.val
          = (finalize_process w4).status.val := by rw [hf]
        _ ≤ _ := update_status_mono eO sO (finalize_process w4)

/-- A single tick only ever prepends phase names to the status log. -/
lemma tick_log (eO sO : ℚ → ℚ) (w : World) (s' : String)
    (h : s' ∈ (resultWorld (tick eO sO w)).statusLog) :
    s' ∈ phaseNames ∨ s' ∈ w.statusLog := by
  unfold tick at h
  have hg : (guidance_process (telem_tick w)).statusLog = w.statusLog :=
    (guidance_process_frame (telem_tick w)).2
  cases ht : throttle_process eO (guidance_process (telem_tick w)) with
  | error e =>
    rw [ht] at h
    have h1 := (throttle_process_frame eO (guidance_process (telem_tick w))).2
    rw [ht] at h1
    dsimp only at h
    rw [h1, hg] at h
    exact Or.inr h
  | ok w2 =>
    rw [ht] at h
    have h1 := (throttle_process_frame eO (guidance_process (telem_tick w))).2
    rw [ht] at h1
    have hw2 : w2.statusLog = w.statusLog := by rw [← hg, ← h1]; rfl
    have hs3 : (staging_process w2).statusLog = w.statusLog := by
      rw [(staging_process_frame w2).2, hw2]
    dsimp only at h
    cases hw : warp_process eO (staging_process w2) with
    | error e =>
      rw [hw] at h
      have h2 := (warp_process_frame eO (staging_process w2)).2
      rw [hw] at h2
      dsimp only at h
      rw [h2, hs3] at h
      exact Or.inr h
    | ok w4 =>
      rw [hw] at h
      have h2 := (warp_process_frame eO (staging_process w2)).2
      rw [hw] at h2
      have hw4 : w4.statusLog = w.statusLog := by rw [← hs3, ← h2]; rfl
      have hf : (finalize_process w4).statusLog = w.statusLog := by
        rw [(finalize_process_frame w4).2, hw4]
      dsimp only at h
      rcases update_status_log eO sO (finalize_process w4) with hu | ⟨s, hu⟩
      · rw [hu, hf] at h
        exact Or.inr h
      · rw [hu, hf] at h
        rcases List.mem_cons.mp h with h' | h'
        · exact Or.inl (h' ▸ status_name_mem s)
        · exact Or.inr h'

-- --------------------------------------------------------------------------
-- C3: phase monotonicity over the whole mission loop
-- --------------------------------------------------------------------------

/-- C3: for every telemetry sequence `env` and every number of ticks, the
mission phase only moves forward in the order Idle, Prelaunch, Launch,
Liftoff, Pitch, Coast, Circularize, Finalize, Done (encoded by
`Status.val`): the status reached by `run` is never earlier than the status
it started from.  Since every intermediate state of the loop is itself the
result of a shorter `run`, no reachable later state is in an earlier
phase. -/
theorem phase_monotonic (eO sO : ℚ → ℚ) (env : Nat → Telem) (n : Nat)
    (w : World) :
    w.status.val ≤ (resultWorld (run eO sO env n w)).status.val := by
  induction n generalizing w with
  | zero => exact le_refl _
  | succ n ih =>
    unfold run
    split
    · exact le_refl _
    · cases ht : tick eO sO { w with v := env n } with
      | ok w' =>
        have h1 := tick_mono eO sO { w with v := env n }
        rw [ht] at h1
        exact le_trans h1 (ih w')
      | error e =>
        have h1 := tick_mono eO sO { w with v := env n }
        rw [ht] at h1
        exact h1

-- --------------------------------------------------------------------------
-- C1: fault handling of the mission loop
-- --------------------------------------------------------------------------

/-- The loop only ever prepends phase names to the status log, whether it
returns normally or an exception propagates out of it. -/
lemma run_log (eO sO : ℚ → ℚ) (env : Nat → Telem) (n : Nat) (w : World)
    (s' : String) (h : s' ∈ (resultWorld (run eO sO env n w)).statusLog) :
    s' ∈ phaseNames ∨ s' ∈ w.statusLog := by
  induction n generalizing w with
  | zero => exact Or.inr h
  | succ n ih =>
    unfold run at h
    split at h
    · exact Or.inr h
    · cases ht : tick eO sO { w with v := env n } with
      | ok w' =>
        rw [ht] at h
        dsimp only at h
        rcases ih w' h with h1 | h1
        · exact Or.inl h1
        · exact tick_log eO sO { w with v := env n } s' (by rw [ht]; exact h1)
      | error e =>
        rw [ht] at h
        dsimp only at h
        exact tick_log eO sO { w with v := env n } s' (by rw [ht]; exact h)

/-- C1 (amended): the mission loop has no fault handler.  An uncaught
failure propagates out of `to_orbit` (the loop halts and is never retried),
but no safety action is taken: the only messages ever reported to the
status sink are phase names — no crash status naming a failure exists — and
the throttle is not forced to zero (see the counterexample, where the loop
faults with the throttle still at 1). -/
theorem fault_no_crash_status (eO sO : ℚ → ℚ) (env : Nat → Telem) (n : Nat)
    (w : World) (s' : String)
    (h : s' ∈ (resultWorld (to_orbit eO sO env n w)).statusLog) :
    s' ∈ phaseNames ∨ s' ∈ w.statusLog := by
  unfold to_orbit at h
  cases hs : set_status sO .prelaunch w with
  | error e =>
    obtain ⟨e1, we⟩ := e
    rw [hs] at h
    dsimp only [resultWorld] at h
    have hl := set_status_result_log sO .prelaunch w
    rw [hs] at hl
    dsimp only [resultWorld] at hl
    rw [hl] at h
    rcases List.mem_cons.mp h with h' | h'
    · exact Or.inl (h' ▸ status_name_mem .prelaunch)
    · exact Or.inr h'
  | ok w1 =>
    rw [hs] at h
    dsimp only at h
    rcases run_log eO sO env n w1 s' h with h1 | h1
    · exact Or.inl h1
    · have hl := set_status_result_log sO .prelaunch w
      rw [hs] at hl
      dsimp only [resultWorld] at hl
      rw [hl] at h1
      rcases List.mem_cons.mp h1 with h' | h'
      · exact Or.inl (h' ▸ status_name_mem .prelaunch)
      · exact Or.inr h'

/-- Witness for C1's theorem: on a zero-tick mission from the base state,
the only logged message "PRELAUNCH" is a phase name. -/
theorem fault_no_crash_status_witness :
    "PRELAUNCH" ∈ phaseNames ∨ "PRELAUNCH" ∈ w_base.statusLog :=
  fault_no_crash_status expQ (fun x => x) (fun _ => t_base) 0 w_base
    "PRELAUNCH"
    (by simp [to_orbit, set_status, guidance_set_status, run, resultWorld,
      w_base, Status.name])

/-- Constant telemetry that drives the mission through PRELAUNCH, LAUNCH,
LIFTOFF and PITCH and then crashes node creation on entering COAST: the
apoapsis radius 0 makes `2.0/apo` raise ZeroDivisionError. -/
def tC1 : Telem :=
  { t_base with
    mean_altitude := 200
    orbit_speed := 100
    apoapsis_altitude := 100000
    apoapsis := 0 }

/-- Mission state after the initial `set_status(PRELAUNCH)`. -/
def wS1 : World := { w_base with status := .prelaunch, statusLog := ["PRELAUNCH"] }

/-- Mission state after the first tick (stability hold engaged, full
throttle, phase advanced to LAUNCH). -/
def wS2 : World :=
  { w_base with
    status := .launch
    statusLog := ["LAUNCH", "PRELAUNCH"]
    telemetryCount := 1
    throttle := 1
    sas := true
    v := tC1 }

/-- Mission state after the second tick (LIFTOFF). -/
def wS3 : World :=
  { wS2 with
    status := .liftoff
    statusLog := ["LIFTOFF", "LAUNCH", "PRELAUNCH"]
    telemetryCount := 2 }

/-- Mission state after the third tick (PITCH). -/
def wS4 : World :=
  { wS2 with
    status := .pitch
    statusLog := ["PITCH", "LIFTOFF", "LAUNCH", "PRELAUNCH"]
    telemetryCount := 3 }

/-- Mission state at the uncaught raise inside the fourth tick: COAST was
just entered and logged, node creation divided by the zero apoapsis; the
throttle is still 1. -/
def wERR : World :=
  { wS2 with
    status := .coast
    statusLog := ["COAST", "PITCH", "LIFTOFF", "LAUNCH", "PRELAUNCH"]
    telemetryCount := 4
    apEngaged := true
    targetPitch := 1351368 / 15125
    targetHeading := 90
    targetRoll := some 90 }

/-- One-step unfolding of the loop at a successor fuel value. -/
lemma run_succ (eO sO : ℚ → ℚ) (env : Nat → Telem) (n : Nat) (w : World) :
    run eO sO env (n + 1) w =
      if w.status = .done then .ok w
      else
        match tick eO sO { w with v := env n } with
        | .ok w' => run eO sO env n w'
        | .error e => .error e := rfl

lemma loop_fault_step0 :
    set_status (fun x => x) .prelaunch w_base = .ok wS1 := by
  simp [set_status, guidance_set_status, w_base, wS1, Status.name]

lemma loop_fault_step1 :
    tick expQ (fun x => x) { wS1 with v := tC1 } = .ok wS2 := by
  simp [tick, telem_tick, guidance_process, set_sas_mode,
    throttle_process, staging_process, warp_process, finalize_process,
    update_status, set_status, guidance_set_status, Status.name,
    wS1, wS2, w_base, t_base, tC1, MAX_AUTO_STAGE]

lemma loop_fault_step2 :
    tick expQ (fun x => x) { wS2 with v := tC1 } = .ok wS3 := by
  simp [tick, telem_tick, guidance_process, set_sas_mode,
    throttle_process, staging_process, warp_process, finalize_process,
    update_status, set_status, guidance_set_status, Status.name,
    wS2, wS3, w_base, t_base, tC1, MAX_AUTO_STAGE]

lemma loop_fault_step3 :
    tick expQ (fun x => x) { wS3 with v := tC1 } = .ok wS4 := by
  simp [tick, telem_tick, guidance_process, set_sas_mode,
    throttle_process, staging_process, warp_process, finalize_process,
    update_status, set_status, guidance_set_status, Status.name,
    wS2, wS3, wS4, w_base, t_base, tC1, MAX_AUTO_STAGE]
  all_goals norm_num

lemma loop_fault_step4 :
    tick expQ (fun x => x) { wS4 with v := tC1 } =
      .error (.zeroDivisionError, wERR) := by
  simp [tick, telem_tick, guidance_process, set_sas_mode, g_pitch,
    inc_to_heading, throttle_process, staging_process, warp_process,
    finalize_process, update_status, set_status, guidance_set_status,
    create_circularize_node, pydiv, pysqrt, Status.name,
    wS2, wS4, wERR, w_base, t_base, tC1, MAX_AUTO_STAGE, INCLINATION,
    FORCE_ROLL, ROLL, GRAV_TURN_FINISH, ORBIT_ALT]
  all_goals norm_num

/-- C1 counterexample: a full `to_orbit` execution in which a controller
call raises during a tick (guidance node creation divides by a zero
apoapsis radius on entering COAST).  The loop terminates by the uncaught
ZeroDivisionError, but the throttle is left at 1 — not set to 0 — and the
status log holds only the five phase names, no crash status naming the
failure. -/
theorem loop_fault_cex :
    isFault (to_orbit expQ (fun x => x) (fun _ => tC1) 4 w_base) = true ∧
    (resultWorld (to_orbit expQ (fun x => x) (fun _ => tC1) 4 w_base)).throttle
      = 1 ∧
    (resultWorld (to_orbit expQ (fun x => x) (fun _ => tC1) 4 w_base)).statusLog
      = ["COAST", "PITCH", "LIFTOFF", "LAUNCH", "PRELAUNCH"] := by
  have hd1 : ¬ (wS1.status = Status.done) := by decide
  have hd2 : ¬ (wS2.status = Status.done) := by decide
  have hd3 : ¬ (wS3.status = Status.done) := by decide
  have hd4 : ¬ (wS4.status = Status.done) := by decide
  have hto : to_orbit expQ (fun x => x) (fun _ => tC1) 4 w_base =
      .error (.zeroDivisionError, wERR) := by
    unfold to_orbit
    rw [loop_fault_step0]
    try dsimp only
    rw [run_succ, if_neg hd1]
    try dsimp only
    rw [loop_fault_step1]
    try dsimp only
    rw [run_succ, if_neg hd2]
    try dsimp only
    rw [loop_fault_step2]
    try dsimp only
    rw [run_succ, if_neg hd3]
    try dsimp only
    rw [loop_fault_step3]
    try dsimp only
    rw [run_succ, if_neg hd4]
    try dsimp only
    rw [loop_fault_step4]
  rw [hto]
  exact ⟨rfl, rfl, rfl⟩

end KrpcLaunch
